import Mathlib

/-!
# Verification of the imgui-filedialog safe-ownership bridge

Shallow embedding of `src/imgui-filedialog/src/lib.rs` (safe Rust bindings to the
ImGuiFileDialog C API declared in `src/imgui-filedialog-sys/src/lib.rs`).

Modelling conventions:
* The native engine (ImGuiFileDialog C++, an external collaborator reachable only
  through the `sys` function table) is represented by an environment `FfiEnv`
  recording what each native accessor would return for the current context state.
* Native byte buffers (`*mut c_char` contents up to the terminating NUL) are
  `List Nat` of byte values; a null pointer result is `none`.
* `CStr::to_string_lossy` (Rust std) is embedded as a UTF-8 decoder with U+FFFD
  replacement, written with a fuel argument equal to the byte count (every step
  consumes at least one byte, so the fuel never runs out on the initial call).
* Wrapper functions that call `libc::free` return, alongside their result, the
  number of `free` calls they performed, so exactly-once release is a provable
  statement.
* Pointer arguments handed to a native open call are a `CPtr`: `null`, `live s`
  (a pointer into a CString allocation still live at the moment of the call,
  with contents `s`), or `dangling s` (a pointer whose backing CString was
  dropped — and its buffer freed — before the call; `s` is what the buffer held
  before the free). The live/dangling tag for each argument is read off the
  Rust drop points in `FileDialogBuilder::build`.
-/

/-- A continuation byte of a UTF-8 sequence: `0x80 ≤ b ≤ 0xBF`. -/
def isCont (b : Nat) : Bool := 0x80 ≤ b && b ≤ 0xBF

/-- The Unicode replacement character U+FFFD emitted by lossy decoding. -/
def replChar : Char := Char.ofNat 0xFFFD

/-- UTF-8 decoding with U+FFFD replacement for invalid sequences, as performed by
Rust's `String::from_utf8_lossy` / `CStr::to_string_lossy`. The `fuel` argument
makes the recursion structurally obvious; each step consumes at least one input
byte, so `fuel = bs.length` suffices for a complete decode. Lead-byte ranges
exclude overlong encodings, surrogates (lead `0xED` limits the second byte to
`0x80..0x9F`) and code points above U+10FFFF (lead `0xF4` limits the second byte
to `0x80..0x8F`). -/
def utf8LossyAux : Nat → List Nat → List Char
  | 0, _ => []
  | _, [] => []
  | fuel + 1, b1 :: rest =>
    if b1 < 0x80 then
      Char.ofNat b1 :: utf8LossyAux fuel rest
    else if b1 < 0xC2 then
      replChar :: utf8LossyAux fuel rest
    else if b1 < 0xE0 then
      match rest with
      | b2 :: rest2 =>
        if isCont b2 then
          Char.ofNat ((b1 - 0xC0) * 0x40 + (b2 - 0x80)) :: utf8LossyAux fuel rest2
        else
          replChar :: utf8LossyAux fuel rest
      | [] => [replChar]
    else if b1 < 0xF0 then
      match rest with
      | b2 :: rest2 =>
        if (if b1 = 0xE0 then decide (0xA0 ≤ b2) && decide (b2 ≤ 0xBF)
            else if b1 = 0xED then decide (0x80 ≤ b2) && decide (b2 ≤ 0x9F)
            else isCont b2) then
          match rest2 with
          | b3 :: rest3 =>
            if isCont b3 then
              Char.ofNat ((b1 - 0xE0) * 0x1000 + (b2 - 0x80) * 0x40 + (b3 - 0x80)) ::
                utf8LossyAux fuel rest3
            else
              replChar :: utf8LossyAux fuel rest2
          | [] => [replChar]
        else
          replChar :: utf8LossyAux fuel rest
      | [] => [replChar]
    else if b1 < 0xF5 then
      match rest with
      | b2 :: rest2 =>
        if (if b1 = 0xF0 then decide (0x90 ≤ b2) && decide (b2 ≤ 0xBF)
            else if b1 = 0xF4 then decide (0x80 ≤ b2) && decide (b2 ≤ 0x8F)
            else isCont b2) then
          match rest2 with
          | b3 :: rest3 =>
            if isCont b3 then
              match rest3 with
              | b4 :: rest4 =>
                if isCont b4 then
                  Char.ofNat ((b1 - 0xF0) * 0x40000 + (b2 - 0x80) * 0x1000 +
                      (b3 - 0x80) * 0x40 + (b4 - 0x80)) :: utf8LossyAux fuel rest4
                else
                  replChar :: utf8LossyAux fuel rest3
              | [] => [replChar]
            else
              replChar :: utf8LossyAux fuel rest2
          | [] => [replChar]
        else
          replChar :: utf8LossyAux fuel rest
      | [] => [replChar]
    else
      replChar :: utf8LossyAux fuel rest

/-- `CStr::to_string_lossy(..).into_owned()`: total (never-failing) lossy decode
of a native byte buffer into an owned `String`. -/
def to_string_lossy (bs : List Nat) : String := String.mk (utf8LossyAux bs.length bs)

/-- Rust `PathBuf`; its content is the (lossily decoded) path string. -/
abbrev PathBuf := String

/-- `ptr_to_string` (lib.rs line 466): decode a native C string into an owned
`String`. The pointer dereference is modelled by receiving the buffer's bytes. -/
def ptr_to_string (bs : List Nat) : String := to_string_lossy bs

/-- `ptr_to_pathbuf` (lib.rs line 470): decode a native C string into an owned
`PathBuf`. -/
def ptr_to_pathbuf (bs : List Nat) : PathBuf := to_string_lossy bs

/-- The panic raised by `CString::new(..).unwrap()` when the argument holds an
interior NUL byte (`std::ffi::NulError`). -/
inductive RustPanic where
  | nulError
deriving DecidableEq, Repr

/-- A Rust `String` contains an embedded NUL byte exactly when it contains the
character U+0000 (NUL is a one-byte UTF-8 sequence). -/
def containsNul (s : String) : Bool := s.data.any (fun c => c = Char.ofNat 0)

/-- `CString::new(s)`: rejects strings with an embedded NUL byte, otherwise
yields the NUL-terminated C string with contents `s`. The `.unwrap()` on the
error case is the `RustPanic` path. -/
def cstring_new (s : String) : Except RustPanic String :=
  if containsNul s then .error .nulError else .ok s

example : cstring_new "abc" = .ok "abc" := rfl
example : cstring_new "a\x00b" = .error .nulError := rfl
example : to_string_lossy [0x41, 0x42] = "AB" := by decide
example : to_string_lossy [0x41, 0xFF] = String.mk [Char.ofNat 0x41, replChar] := by decide

/-! ## The native open-call boundary -/

/-- A C string pointer argument at the moment a native function is entered.
`live s` points into an allocation still live (contents `s`); `dangling s`
points into an allocation already freed before the call (the buffer held `s`
before the free). The tag is determined by the Rust drop points of the CString
that backs the pointer. -/
inductive CPtr where
  | null
  | live (s : String)
  | dangling (s : String)
deriving DecidableEq, Repr

/-- Dialog mode (lib.rs lines 258-263). -/
inductive DialogMode where
  | OpenFile
  | OpenDirectory
  | SaveFile
deriving DecidableEq, Repr

/-- `ImGuiFileDialogFlags` is a C int bitmask; only bit 0 (`ConfirmOverwrite`)
is defined, so values stay tiny and a `Nat` with `Nat.lor` is exact. -/
abbrev ImGuiFileDialogFlags := Nat

def ImGuiFileDialogFlags_None : ImGuiFileDialogFlags := 0

def ImGuiFileDialogFlags_ConfirmOverwrite : ImGuiFileDialogFlags := 1

/-- Argument record of one native open call (`IGFD_OpenDialog` /
`IGFD_OpenModal`, sys lib.rs lines 81-91 and 135-145): context-implicit, then
key, title, filters, path, file_name, count_selection_max, user_datas, flags. -/
structure OpenCall where
  key : CPtr
  title : CPtr
  filters : CPtr
  path : CPtr
  file_name : CPtr
  count_selection_max : Int
  user_datas : CPtr
  flags : ImGuiFileDialogFlags
deriving DecidableEq, Repr

/-- A native open-dialog entry-point invocation. -/
inductive NativeOpen where
  | IGFD_OpenDialog (c : OpenCall)
  | IGFD_OpenModal (c : OpenCall)
deriving DecidableEq, Repr

/-! ## The request builder (lib.rs lines 244-389) -/

/-- `FileDialogBuilder` state (lib.rs lines 245-255). The `Option CString`
fields hold the contents of already-validated CStrings owned by the builder
(they are set only through the panicking-on-NUL setters below and live as long
as the builder, i.e. past the native call inside `build`). -/
structure FileDialogBuilder where
  mode : DialogMode
  title : Option String
  filters : Option String
  path : Option String
  file_name : Option String
  max_selection : Int
  modal : Bool
  flags : ImGuiFileDialogFlags
deriving DecidableEq, Repr

/-- `FileDialogBuilder::new` (lib.rs lines 266-278): mode as given, no title,
no filters, no path, no file name, max_selection 1, non-modal, flags none. -/
def FileDialogBuilder.new (mode : DialogMode) : FileDialogBuilder :=
  { mode := mode
    title := none
    filters := none
    path := none
    file_name := none
    max_selection := 1
    modal := false
    flags := ImGuiFileDialogFlags_None }

/-- `FileDialogBuilder::title` (lib.rs lines 281-284):
`CString::new(title).unwrap()` — panics on an embedded NUL before anything
else happens; no native function is called by this setter. -/
def FileDialogBuilder.set_title (b : FileDialogBuilder) (t : String) :
    Except RustPanic FileDialogBuilder :=
  (cstring_new t).map (fun c => { b with title := some c })

/-- `FileDialogBuilder::filters` (lib.rs lines 289-292); see `set_title`. -/
def FileDialogBuilder.set_filters (b : FileDialogBuilder) (f : String) :
    Except RustPanic FileDialogBuilder :=
  (cstring_new f).map (fun c => { b with filters := some c })

/-- `FileDialogBuilder::path` (lib.rs lines 295-298): the `Path` argument is
passed through `to_string_lossy` (identity on the already-decoded `String`
model) and then `CString::new(..).unwrap()`; see `set_title`. -/
def FileDialogBuilder.set_path (b : FileDialogBuilder) (p : String) :
    Except RustPanic FileDialogBuilder :=
  (cstring_new p).map (fun c => { b with path := some c })

/-- `FileDialogBuilder::file_name` (lib.rs lines 301-304); see `set_title`. -/
def FileDialogBuilder.set_file_name (b : FileDialogBuilder) (n : String) :
    Except RustPanic FileDialogBuilder :=
  (cstring_new n).map (fun c => { b with file_name := some c })

/-- `FileDialogBuilder::multi_select` (lib.rs lines 311-314). -/
def FileDialogBuilder.multi_select (b : FileDialogBuilder) (max : Int) :
    FileDialogBuilder :=
  { b with max_selection := max }

/-- `FileDialogBuilder::modal` (lib.rs lines 317-320). -/
def FileDialogBuilder.set_modal (b : FileDialogBuilder) : FileDialogBuilder :=
  { b with modal := true }

/-- `FileDialogBuilder::confirm_overwrite` (lib.rs lines 323-326). -/
def FileDialogBuilder.confirm_overwrite (b : FileDialogBuilder) : FileDialogBuilder :=
  { b with flags := Nat.lor b.flags ImGuiFileDialogFlags_ConfirmOverwrite }

/-- `FileDialogBuilder::build` (lib.rs lines 332-388). Takes the builder by
value (`self`), so Rust move semantics consume it: it cannot be finalized a
second time. Returns the list of native open calls issued (the trace of the
`unsafe` block), or the panic raised by `CString::new(key).unwrap()` on line
333 — which happens before the `unsafe` block, so the error case issues no
native call at all.

Lifetime of each pointer argument, from the source's drop points:
* `key_c`, `default_title`, `default_path`, `default_filename` are outer-scope
  locals of `build`, dropped after the `unsafe` block: their pointers are live
  at the call.
* `self.title` / `self.filters` / `self.path` / `self.file_name` are owned by
  `self`, which lives to the end of `build`: live at the call.
* `default_filter` (line 347) is a local of the non-directory match-arm block
  computing `filters_ptr`; it is dropped — its buffer freed — when that block
  ends, before the native call. Its pointer is therefore `dangling ".*"` at
  the call (the pattern clippy flags as a temporary CString `as_ptr`). -/
def FileDialogBuilder.build (b : FileDialogBuilder) (key : String) :
    Except RustPanic (List NativeOpen) :=
  match cstring_new key with
  | .error e => .error e
  | .ok key_c =>
    let default_title : String :=
      match b.mode with
      | .OpenFile => "Open File"
      | .OpenDirectory => "Select Directory"
      | .SaveFile => "Save File"
    let title := b.title.getD default_title
    let filters_ptr : CPtr :=
      match b.mode with
      | .OpenDirectory => .null
      | _ =>
        match b.filters with
        | some f => .live f
        | none => .dangling ".*"
    let path := b.path.getD "."
    let filename := b.file_name.getD ""
    let call : OpenCall :=
      { key := .live key_c
        title := .live title
        filters := filters_ptr
        path := .live path
        file_name := .live filename
        count_selection_max := b.max_selection
        user_datas := .null
        flags := b.flags }
    .ok [if b.modal then .IGFD_OpenModal call else .IGFD_OpenDialog call]

example :
    (FileDialogBuilder.new .OpenFile).build "choose_file" =
      .ok [.IGFD_OpenDialog
        { key := .live "choose_file", title := .live "Open File",
          filters := .dangling ".*", path := .live ".", file_name := .live "",
          count_selection_max := 1, user_datas := .null, flags := 0 }] := rfl

example :
    (FileDialogBuilder.new .OpenDirectory).build "choose_dir" =
      .ok [.IGFD_OpenDialog
        { key := .live "choose_dir", title := .live "Select Directory",
          filters := .null, path := .live ".", file_name := .live "",
          count_selection_max := 1, user_datas := .null, flags := 0 }] := rfl

/-! ## Selection results (sys lib.rs lines 33-47, lib.rs lines 391-424) -/

/-- `IGFD_Selection_Pair` (sys lib.rs lines 34-39): two native C strings. -/
structure IGFD_Selection_Pair where
  fileName : List Nat
  filePathName : List Nat
deriving DecidableEq, Repr

/-- `IGFD_Selection` (sys lib.rs lines 42-47): a `table` pointer and a `count`.
The valid entries are `table[0] .. table[count-1]`; the struct is modelled as
the list of exactly those entries, so `count` is the list length. -/
structure IGFD_Selection where
  table : List IGFD_Selection_Pair
deriving DecidableEq, Repr

/-- The `count` field of the native struct. -/
def IGFD_Selection.count (s : IGFD_Selection) : Nat := s.table.length

/-- `Selection` (lib.rs lines 391-394): owns the native table it wraps. -/
structure Selection where
  inner : IGFD_Selection
deriving DecidableEq, Repr

/-- `Selection::new` (lib.rs lines 397-399). -/
def Selection.new (inner : IGFD_Selection) : Selection := ⟨inner⟩

/-- `Selection::count` (lib.rs lines 402-404). -/
def Selection.count (s : Selection) : Nat := s.inner.count

/-- `Selection::files` (lib.rs lines 407-412): for each `i < count`, read the
pair `*table.add(i)` (in bounds by the native struct invariant; the `getD`
default is unreachable) and decode its `filePathName`. Takes `&self`: a pure
read making no native call and transferring no ownership. The iterator is
materialized as the list of its items. -/
def Selection.files (s : Selection) : List PathBuf :=
  (List.range s.inner.count).map
    (fun i => ptr_to_pathbuf ((s.inner.table.getD i ⟨[], []⟩).filePathName))

/-- One observable native release event. -/
inductive NativeEvent where
  | selectionDestroyContent
deriving DecidableEq, Repr

/-- A whole Rust scope holding a `Selection` value: the value is created from a
native table, `files()` is called `n` times (each call a pure `&self` borrow
issuing no native release), and when the scope ends `Drop::drop` (lib.rs lines
420-424) runs exactly once — Rust runs a value's destructor exactly once —
issuing the single `IGFD_Selection_DestroyContent` call. The first component
collects the result of each `files()` call in order; the second is the trace
of native release events of the whole lifecycle. -/
def selectionLifecycle (t : IGFD_Selection) (n : Nat) :
    List (List PathBuf) × List NativeEvent :=
  (List.replicate n (Selection.files (Selection.new t)),
   [NativeEvent.selectionDestroyContent])

/-! ## The dialog context and result accessors (lib.rs lines 46-238) -/

/-- The native side of one `FileDialog` context at a given instant: what each
native accessor would return if called now. A `none` buffer is a null pointer
result; a `some bs` buffer is a heap-allocated C string with bytes `bs` whose
ownership transfers to the caller. -/
structure FfiEnv where
  isOk : Bool
  getSelection : IGFD_Selection
  getFilePathName : Option (List Nat)
  getCurrentPath : Option (List Nat)
  getCurrentFilter : Option (List Nat)
  serializeBookmarksBuf : Option (List Nat)
deriving DecidableEq, Repr

/-- `FileDialog::is_ok` (lib.rs lines 113-115): passthrough of `IGFD_IsOk`. -/
def FileDialog.is_ok (env : FfiEnv) : Bool := env.isOk

/-- `FileDialog::selection` (lib.rs lines 136-144): `None` when `is_ok()` is
false, otherwise wraps the table returned by `IGFD_GetSelection` — whatever its
count, including 0. -/
def FileDialog.selection (env : FfiEnv) : Option Selection :=
  if !FileDialog.is_ok env then none
  else some (Selection.new env.getSelection)

/-- `FileDialog::file_path_name` (lib.rs lines 149-163): `None` when `is_ok()`
is false; otherwise calls `IGFD_GetFilePathName`, maps a null pointer to
`None`, and for a non-null buffer decodes it, frees it once with `libc::free`,
and returns the owned `PathBuf`. The second component counts the `libc::free`
calls performed. -/
def FileDialog.file_path_name (env : FfiEnv) : Option PathBuf × Nat :=
  if !FileDialog.is_ok env then (none, 0)
  else
    match env.getFilePathName with
    | none => (none, 0)
    | some buf => (some (ptr_to_pathbuf buf), 1)

/-- `FileDialog::current_path` (lib.rs lines 166-176): calls
`IGFD_GetCurrentPath` directly — there is no `is_ok()` check — maps null to
`None`, otherwise decodes, frees once, returns the owned `PathBuf`. -/
def FileDialog.current_path (env : FfiEnv) : Option PathBuf × Nat :=
  match env.getCurrentPath with
  | none => (none, 0)
  | some buf => (some (ptr_to_pathbuf buf), 1)

/-- `FileDialog::current_filter` (lib.rs lines 179-189): calls
`IGFD_GetCurrentFilter` directly — no `is_ok()` check — maps null to `None`,
otherwise decodes, frees once, returns the owned `String`. -/
def FileDialog.current_filter (env : FfiEnv) : Option String × Nat :=
  match env.getCurrentFilter with
  | none => (none, 0)
  | some buf => (some (ptr_to_string buf), 1)

/-- `FileDialog::serialize_bookmarks` (lib.rs lines 432-442): calls
`IGFD_SerializeBookmarks`; a null pointer yields the empty `String` (no free),
a non-null buffer is decoded, freed once, and returned. The return type is
`String`, not `Option` or `Result`: the function cannot fail and never reports
absence. -/
def FileDialog.serialize_bookmarks (env : FfiEnv) : String × Nat :=
  match env.serializeBookmarksBuf with
  | none => ("", 0)
  | some buf => (ptr_to_string buf, 1)

/-! ## Extension styling (lib.rs lines 197-223) -/

/-- Modelled from the spec: the implementation of `IGFD_ClearExtentionInfos`
lives in the native ImGuiFileDialog C++ engine, which is not under `src/`
(only its declaration, sys lib.rs line 279, documented "Clear all extension
settings", is). Per that documentation and spec section 4.5, the context keeps
a table associating extension filters to styling info, and the clear call
empties it. The styling payload (RGBA color and optional icon, spec section 3
ExtensionStyle) is irrelevant to the claims and kept as a type parameter. -/
def IGFD_ClearExtentionInfos {α : Type} (_st : List (String × α)) : List (String × α) := []

/-- `FileDialog::clear_extension_infos` (lib.rs lines 221-223): a direct
passthrough to `IGFD_ClearExtentionInfos` on the context's styling state; a
total function — it cannot fail. -/
def FileDialog.clear_extension_infos {α : Type} (st : List (String × α)) :
    List (String × α) :=
  IGFD_ClearExtentionInfos st

/-! ## Helper lemmas -/

/-- The argument record that `FileDialogBuilder::build` hands to the selected
native entry point, for a key without an interior NUL. -/
def builtCall (b : FileDialogBuilder) (key : String) : OpenCall :=
  { key := .live key
    title := .live (b.title.getD
      (match b.mode with
       | .OpenFile => "Open File"
       | .OpenDirectory => "Select Directory"
       | .SaveFile => "Save File"))
    filters :=
      match b.mode with
      | .OpenDirectory => .null
      | _ =>
        match b.filters with
        | some f => .live f
        | none => .dangling ".*"
    path := .live (b.path.getD ".")
    file_name := .live (b.file_name.getD "")
    count_selection_max := b.max_selection
    user_datas := .null
    flags := b.flags }

/-- When the key has no interior NUL, `build` succeeds and issues the single
open call described by `builtCall`, through the entry point selected by the
modal flag. -/
theorem FileDialogBuilder.build_ok (b : FileDialogBuilder) (key : String)
    (h : containsNul key = false) :
    b.build key =
      .ok [if b.modal then NativeOpen.IGFD_OpenModal (builtCall b key)
           else NativeOpen.IGFD_OpenDialog (builtCall b key)] := by
  unfold FileDialogBuilder.build cstring_new builtCall
  rw [h]
  simp

/-! ## Claims -/

/-- Claim C1 (counterexample): the claim that every result accessor returns
`None` whenever `is_ok()` is false fails on the code at a concrete context
state: with `IGFD_IsOk` false and non-null `IGFD_GetCurrentPath` /
`IGFD_GetCurrentFilter` buffers, `current_path()` and `current_filter()`
return `Some` — they never consult `is_ok()`. -/
theorem current_path_some_without_ok :
    FileDialog.is_ok
      { isOk := false, getSelection := ⟨[]⟩, getFilePathName := none,
        getCurrentPath := some [0x41], getCurrentFilter := some [0x2E, 0x2A],
        serializeBookmarksBuf := none } = false
  ∧ (FileDialog.current_path
      { isOk := false, getSelection := ⟨[]⟩, getFilePathName := none,
        getCurrentPath := some [0x41], getCurrentFilter := some [0x2E, 0x2A],
        serializeBookmarksBuf := none }).fst = some "A"
  ∧ (FileDialog.current_filter
      { isOk := false, getSelection := ⟨[]⟩, getFilePathName := none,
        getCurrentPath := some [0x41], getCurrentFilter := some [0x2E, 0x2A],
        serializeBookmarksBuf := none }).fst = some ".*" := by
  refine ⟨rfl, ?_, ?_⟩ <;> decide

/-- Claim C1 (amended): `selection()` and `file_path_name()` return `Some` only
when `is_ok()` is true and return `None` whenever `is_ok()` is false;
`current_path()` and `current_filter()` do not consult `is_ok()` — each
returns `Some` exactly when its native accessor returns a non-null buffer,
even when `is_ok()` is false. -/
theorem result_accessors_ok_gating (env : FfiEnv) :
    (FileDialog.is_ok env = false →
      FileDialog.selection env = none ∧ (FileDialog.file_path_name env).fst = none)
  ∧ (FileDialog.current_path env).fst = Option.map ptr_to_pathbuf env.getCurrentPath
  ∧ (FileDialog.current_filter env).fst = Option.map ptr_to_string env.getCurrentFilter := by
  refine ⟨fun h => ?_, ?_, ?_⟩
  · have hb : env.isOk = false := h
    constructor
    · simp [FileDialog.selection, FileDialog.is_ok, hb]
    · simp [FileDialog.file_path_name, FileDialog.is_ok, hb]
  · cases hp : env.getCurrentPath <;> simp [FileDialog.current_path, hp]
  · cases hf : env.getCurrentFilter <;> simp [FileDialog.current_filter, hf]

/-- Claim C1 (witness): the amended claim evaluated on a cancelled-dialog
state whose native current-path buffer is non-null. -/
theorem result_accessors_ok_gating_witness :
    FileDialog.selection
      { isOk := false, getSelection := ⟨[]⟩, getFilePathName := some [0x42],
        getCurrentPath := some [0x41], getCurrentFilter := none,
        serializeBookmarksBuf := none } = none
  ∧ (FileDialog.file_path_name
      { isOk := false, getSelection := ⟨[]⟩, getFilePathName := some [0x42],
        getCurrentPath := some [0x41], getCurrentFilter := none,
        serializeBookmarksBuf := none }).fst = none
  ∧ (FileDialog.current_path
      { isOk := false, getSelection := ⟨[]⟩, getFilePathName := some [0x42],
        getCurrentPath := some [0x41], getCurrentFilter := none,
        serializeBookmarksBuf := none }).fst = some "A" := by
  obtain ⟨h1, h2, h3⟩ := result_accessors_ok_gating
    { isOk := false, getSelection := ⟨[]⟩, getFilePathName := some [0x42],
      getCurrentPath := some [0x41], getCurrentFilter := none,
      serializeBookmarksBuf := none }
  exact ⟨(h1 rfl).1, (h1 rfl).2, h2.trans (by decide)⟩

/-- Claim C2 (code behavior at the failing input): finalizing a builder with no
`filters()` call. In OpenDirectory mode the native call receives a null filter
pointer as claimed; but in OpenFile and SaveFile modes the native call does
not receive a live `".*"` string — the `default_filter` CString is a local of
the match-arm block computing `filters_ptr` (lib.rs line 347), dropped when
that block ends, so the pointer passed to `IGFD_OpenDialog` dangles into freed
memory that formerly held `".*"`. -/
theorem build_default_filter_dangling :
    (FileDialogBuilder.new .OpenFile).build "choose_file" =
      .ok [.IGFD_OpenDialog
        { key := .live "choose_file", title := .live "Open File",
          filters := .dangling ".*", path := .live ".", file_name := .live "",
          count_selection_max := 1, user_datas := .null, flags := 0 }]
  ∧ (FileDialogBuilder.new .SaveFile).build "save_file" =
      .ok [.IGFD_OpenDialog
        { key := .live "save_file", title := .live "Save File",
          filters := .dangling ".*", path := .live ".", file_name := .live "",
          count_selection_max := 1, user_datas := .null, flags := 0 }]
  ∧ (FileDialogBuilder.new .OpenDirectory).build "choose_dir" =
      .ok [.IGFD_OpenDialog
        { key := .live "choose_dir", title := .live "Select Directory",
          filters := .null, path := .live ".", file_name := .live "",
          count_selection_max := 1, user_datas := .null, flags := 0 }] :=
  ⟨rfl, rfl, rfl⟩

/-- Claim C3: every application-supplied string with an embedded NUL byte is
rejected at the call site by `CString::new(..).unwrap()` — the setter or
`build` panics — before any native function is invoked. The setters issue no
native call at all (their entire effect is the returned builder), and in
`build` the key conversion on lib.rs line 333 precedes the `unsafe` block, so
the error outcome carries an empty native-call trace: no native resource is
touched. -/
theorem nul_string_rejected_before_native (s : String) (h : containsNul s = true) :
    (∀ b : FileDialogBuilder, b.set_title s = .error .nulError)
  ∧ (∀ b : FileDialogBuilder, b.set_filters s = .error .nulError)
  ∧ (∀ b : FileDialogBuilder, b.set_path s = .error .nulError)
  ∧ (∀ b : FileDialogBuilder, b.set_file_name s = .error .nulError)
  ∧ (∀ b : FileDialogBuilder, b.build s = .error .nulError) := by
  refine ⟨fun b => ?_, fun b => ?_, fun b => ?_, fun b => ?_, fun b => ?_⟩ <;>
    simp [FileDialogBuilder.set_title, FileDialogBuilder.set_filters,
      FileDialogBuilder.set_path, FileDialogBuilder.set_file_name,
      FileDialogBuilder.build, cstring_new, h, Except.map]

/-- Claim C3 (witness): the string `"a\x00b"` holds an embedded NUL; the
`title` setter and `build` both reject it. -/
theorem nul_string_rejected_before_native_witness :
    containsNul "a\x00b" = true
  ∧ (FileDialogBuilder.new .OpenFile).set_title "a\x00b" = .error .nulError
  ∧ (FileDialogBuilder.new .OpenFile).build "a\x00b" = .error .nulError := by
  have h := nul_string_rejected_before_native "a\x00b" (by decide)
  exact ⟨by decide, h.1 _, h.2.2.2.2 _⟩

/-- Claim C4: for every configured builder and NUL-free key, `build(key)`
issues exactly one native open call — `IGFD_OpenModal` when `modal()` was
called, `IGFD_OpenDialog` otherwise — passing the configured path, file name,
selection cap and flags through verbatim (a configured title likewise; the
mode selects the defaults and the filter arm of that one call). `build` takes
`self` by value, so Rust move semantics consume the builder: it cannot be
finalized a second time; the model reflects this by `build` being the only
consumer of the builder value. -/
theorem build_issues_exactly_one_open (b : FileDialogBuilder) (key : String)
    (h : containsNul key = false) :
    ∃ c : OpenCall,
      b.build key =
        .ok [if b.modal then NativeOpen.IGFD_OpenModal c
             else NativeOpen.IGFD_OpenDialog c]
      ∧ (∀ calls, b.build key = .ok calls → calls.length = 1)
      ∧ c.key = CPtr.live key
      ∧ c.count_selection_max = b.max_selection
      ∧ c.flags = b.flags
      ∧ c.user_datas = CPtr.null
      ∧ (∀ t, b.title = some t → c.title = CPtr.live t)
      ∧ (∀ p, b.path = some p → c.path = CPtr.live p)
      ∧ (∀ n, b.file_name = some n → c.file_name = CPtr.live n)
      ∧ (b.mode = .OpenDirectory → c.filters = CPtr.null)
      ∧ (∀ f, b.filters = some f → b.mode ≠ .OpenDirectory →
          c.filters = CPtr.live f) := by
  refine ⟨builtCall b key, b.build_ok key h, ?_, rfl, rfl, rfl, rfl,
    ?_, ?_, ?_, ?_, ?_⟩
  · intro calls hc
    rw [b.build_ok key h] at hc
    cases hc
    rfl
  · intro t ht
    simp [builtCall, ht]
  · intro p hp
    simp [builtCall, hp]
  · intro n hn
    simp [builtCall, hn]
  · intro hd
    simp [builtCall, hd]
  · intro f hf hd
    cases hm : b.mode
    · simp [builtCall, hf, hm]
    · exact absurd hm hd
    · simp [builtCall, hf, hm]

/-- Claim C4 (witness): a fully configured modal save-file builder with key
`"save_key"` finalizes into exactly one `IGFD_OpenModal` call carrying the
configured arguments. -/
theorem build_issues_exactly_one_open_witness :
    ∃ c : OpenCall,
      ({ mode := .SaveFile, title := some "Save As", filters := some ".txt",
         path := some "/tmp", file_name := some "out.txt", max_selection := 5,
         modal := true, flags := 1 } : FileDialogBuilder).build "save_key" =
        .ok [NativeOpen.IGFD_OpenModal c]
      ∧ c.title = CPtr.live "Save As"
      ∧ c.path = CPtr.live "/tmp"
      ∧ c.file_name = CPtr.live "out.txt"
      ∧ c.count_selection_max = 5
      ∧ c.flags = 1 := by
  obtain ⟨c, h1, _, _, hmax, hflags, _, ht, hp, hn, _, _⟩ :=
    build_issues_exactly_one_open
      { mode := .SaveFile, title := some "Save As", filters := some ".txt",
        path := some "/tmp", file_name := some "out.txt", max_selection := 5,
        modal := true, flags := 1 } "save_key" (by decide)
  exact ⟨c, by simpa using h1, ht _ rfl, hp _ rfl, hn _ rfl, hmax, hflags⟩

/-- Claim C5: a builder finalized without any configuration call passes the
mode-specific default title, initial path `"."`, empty default file name,
selection cap 1, and flags 0 to the (non-modal) native open call. All of
these defaults are outer-scope locals of `build` (or literals), live at the
moment of the call. -/
theorem build_default_arguments (mode : DialogMode) (key : String)
    (h : containsNul key = false) :
    ∃ c : OpenCall,
      (FileDialogBuilder.new mode).build key = .ok [NativeOpen.IGFD_OpenDialog c]
      ∧ c.title = CPtr.live (match mode with
          | .OpenFile => "Open File"
          | .OpenDirectory => "Select Directory"
          | .SaveFile => "Save File")
      ∧ c.path = CPtr.live "."
      ∧ c.file_name = CPtr.live ""
      ∧ c.count_selection_max = 1
      ∧ c.flags = 0 := by
  refine ⟨builtCall (FileDialogBuilder.new mode) key, ?_, ?_, rfl, rfl, rfl, rfl⟩
  · have := (FileDialogBuilder.new mode).build_ok key h
    simpa [FileDialogBuilder.new] using this
  · cases mode <;> rfl

/-- Claim C5 (witness): the defaults evaluated for an unconfigured save-file
builder with key `"k"`. -/
theorem build_default_arguments_witness :
    ∃ c : OpenCall,
      (FileDialogBuilder.new .SaveFile).build "k" = .ok [NativeOpen.IGFD_OpenDialog c]
      ∧ c.title = CPtr.live "Save File"
      ∧ c.path = CPtr.live "."
      ∧ c.file_name = CPtr.live ""
      ∧ c.count_selection_max = 1
      ∧ c.flags = 0 := by
  obtain ⟨c, h1, h2, h3, h4, h5, h6⟩ :=
    build_default_arguments .SaveFile "k" (by decide)
  exact ⟨c, h1, h2, h3, h4, h5, h6⟩

/-- Claim C6: over the whole lifecycle of a `Selection` value — any number of
`files()` calls followed by the drop — the native table is released exactly
once (`IGFD_Selection_DestroyContent` appears once in the release trace), and
`files()` is read-only and restartable: every call yields the same list of
`count()` decoded paths, in the same order, without transferring ownership of
any entry (`files` takes `&self` and builds fresh owned `PathBuf`s). -/
theorem selection_lifecycle_single_release (t : IGFD_Selection) (n : Nat) :
    ((selectionLifecycle t n).snd.count NativeEvent.selectionDestroyContent = 1)
  ∧ (selectionLifecycle t n).fst.length = n
  ∧ (∀ r ∈ (selectionLifecycle t n).fst,
      r = Selection.files (Selection.new t)
      ∧ r.length = Selection.count (Selection.new t)) := by
  refine ⟨rfl, by simp [selectionLifecycle], ?_⟩
  intro r hr
  have he : r = Selection.files (Selection.new t) :=
    List.eq_of_mem_replicate hr
  subst he
  exact ⟨rfl, by simp [Selection.files, Selection.count, IGFD_Selection.count]⟩

/-- Claim C6 (witness): a one-entry table read twice — one release event, and
both reads decode the single path `"/A"`. -/
theorem selection_lifecycle_single_release_witness :
    ((selectionLifecycle ⟨[⟨[0x41], [0x2F, 0x41]⟩]⟩ 2).snd.count
        NativeEvent.selectionDestroyContent = 1)
  ∧ ∀ r ∈ (selectionLifecycle ⟨[⟨[0x41], [0x2F, 0x41]⟩]⟩ 2).fst,
      r = ["/A"] ∧ r.length = 1 := by
  obtain ⟨h1, _, h3⟩ :=
    selection_lifecycle_single_release ⟨[⟨[0x41], [0x2F, 0x41]⟩]⟩ 2
  refine ⟨h1, fun r hr => ?_⟩
  obtain ⟨he, hl⟩ := h3 r hr
  rw [he]
  exact ⟨by decide, by decide⟩

/-- Claim C7: each scalar-string accessor maps a null native result to `None`
(never an error: the return type has no failure case), and a non-null buffer
to `Some` of its total lossy decode, freeing the native buffer exactly once
via `libc::free` before returning; the returned `String`/`PathBuf` is a fresh
owned value, not a view of native memory. For `file_path_name` the native
accessor is only reached when `is_ok()` holds (hence that hypothesis); the
other two call their native accessor unconditionally. -/
theorem scalar_accessors_null_and_free (env : FfiEnv) :
    (env.isOk = true →
      (env.getFilePathName = none → FileDialog.file_path_name env = (none, 0))
      ∧ (∀ buf, env.getFilePathName = some buf →
          FileDialog.file_path_name env = (some (ptr_to_pathbuf buf), 1)))
  ∧ (env.getCurrentPath = none → FileDialog.current_path env = (none, 0))
  ∧ (∀ buf, env.getCurrentPath = some buf →
      FileDialog.current_path env = (some (ptr_to_pathbuf buf), 1))
  ∧ (env.getCurrentFilter = none → FileDialog.current_filter env = (none, 0))
  ∧ (∀ buf, env.getCurrentFilter = some buf →
      FileDialog.current_filter env = (some (ptr_to_string buf), 1)) := by
  refine ⟨fun hok => ⟨fun h => ?_, fun buf h => ?_⟩,
    fun h => ?_, fun buf h => ?_, fun h => ?_, fun buf h => ?_⟩ <;>
    simp [FileDialog.file_path_name, FileDialog.current_path,
      FileDialog.current_filter, FileDialog.is_ok, *]

/-- Claim C7 (witness): a confirmed dialog whose native file-path buffer holds
`"/tmp/x"`, with a null current-path and a `".md"` current-filter buffer. -/
theorem scalar_accessors_null_and_free_witness :
    FileDialog.file_path_name
      { isOk := true, getSelection := ⟨[]⟩,
        getFilePathName := some [0x2F, 0x74, 0x6D, 0x70, 0x2F, 0x78],
        getCurrentPath := none, getCurrentFilter := some [0x2E, 0x6D, 0x64],
        serializeBookmarksBuf := none } = (some "/tmp/x", 1)
  ∧ FileDialog.current_path
      { isOk := true, getSelection := ⟨[]⟩,
        getFilePathName := some [0x2F, 0x74, 0x6D, 0x70, 0x2F, 0x78],
        getCurrentPath := none, getCurrentFilter := some [0x2E, 0x6D, 0x64],
        serializeBookmarksBuf := none } = (none, 0)
  ∧ FileDialog.current_filter
      { isOk := true, getSelection := ⟨[]⟩,
        getFilePathName := some [0x2F, 0x74, 0x6D, 0x70, 0x2F, 0x78],
        getCurrentPath := none, getCurrentFilter := some [0x2E, 0x6D, 0x64],
        serializeBookmarksBuf := none } = (some ".md", 1) := by
  obtain ⟨hfp, hcp, _, _, hcf⟩ := scalar_accessors_null_and_free
    { isOk := true, getSelection := ⟨[]⟩,
      getFilePathName := some [0x2F, 0x74, 0x6D, 0x70, 0x2F, 0x78],
      getCurrentPath := none, getCurrentFilter := some [0x2E, 0x6D, 0x64],
      serializeBookmarksBuf := none }
  refine ⟨((hfp rfl).2 _ rfl).trans (by decide), hcp rfl, (hcf _ rfl).trans (by decide)⟩

/-- Claim C8: `clear_extension_infos()` is idempotent and total: a second
consecutive call leaves the context's extension-styling state unchanged (both
calls yield the empty table) and cannot fail. -/
theorem clear_extension_infos_idempotent {α : Type} (st : List (String × α)) :
    FileDialog.clear_extension_infos (FileDialog.clear_extension_infos st) =
      FileDialog.clear_extension_infos st := rfl

/-- Claim C9: `selection()` returns `Some` whenever `is_ok()` is true — for
every native table, including an empty one with count 0 — and returns `None`
exactly when `is_ok()` is false, never merely because the selection is empty. -/
theorem selection_some_iff_ok (env : FfiEnv) :
    (FileDialog.is_ok env = true →
      FileDialog.selection env = some (Selection.new env.getSelection))
  ∧ (FileDialog.selection env = none ↔ FileDialog.is_ok env = false) := by
  unfold FileDialog.selection FileDialog.is_ok
  cases h : env.isOk <;> simp

/-- Claim C9 (witness): a confirmed dialog with an empty native table still
yields `Some`, and the wrapped selection has count 0. -/
theorem selection_some_iff_ok_witness :
    FileDialog.selection
      { isOk := true, getSelection := ⟨[]⟩, getFilePathName := none,
        getCurrentPath := none, getCurrentFilter := none,
        serializeBookmarksBuf := none } =
      some (Selection.new ⟨[]⟩)
  ∧ (Selection.new ⟨[]⟩).count = 0 := by
  obtain ⟨h1, _⟩ := selection_some_iff_ok
    { isOk := true, getSelection := ⟨[]⟩, getFilePathName := none,
      getCurrentPath := none, getCurrentFilter := none,
      serializeBookmarksBuf := none }
  exact ⟨h1 rfl, rfl⟩

/-- Claim C10: `serialize_bookmarks()` never fails and never returns an
absence marker — its return type is a plain `String`. A null native serializer
result yields the empty `String` with no `libc::free` call; a non-null buffer
yields its decode after exactly one free. -/
theorem serialize_bookmarks_total (env : FfiEnv) :
    (env.serializeBookmarksBuf = none →
      FileDialog.serialize_bookmarks env = ("", 0))
  ∧ (∀ buf, env.serializeBookmarksBuf = some buf →
      FileDialog.serialize_bookmarks env = (ptr_to_string buf, 1)) := by
  refine ⟨fun h => ?_, fun buf h => ?_⟩ <;>
    simp [FileDialog.serialize_bookmarks, h]

/-- Claim C10 (witness): a null serializer result yields `""` with zero frees;
a buffer holding `"B 1 0"` yields that string after one free. -/
theorem serialize_bookmarks_total_witness :
    FileDialog.serialize_bookmarks
      { isOk := false, getSelection := ⟨[]⟩, getFilePathName := none,
        getCurrentPath := none, getCurrentFilter := none,
        serializeBookmarksBuf := none } = ("", 0)
  ∧ FileDialog.serialize_bookmarks
      { isOk := false, getSelection := ⟨[]⟩, getFilePathName := none,
        getCurrentPath := none, getCurrentFilter := none,
        serializeBookmarksBuf := some [0x42, 0x20, 0x31, 0x20, 0x30] } =
      ("B 1 0", 1) := by
  refine ⟨(serialize_bookmarks_total _).1 rfl, ?_⟩
  exact ((serialize_bookmarks_total _).2 _ rfl).trans (by decide)
